import Mathlib

/-!
Verification of `dynamics_and_models.py` (intersection-crossing forward model).

Shallow embedding conventions:
* one batch row is modelled (the numpy code is data-parallel over rows with no
  cross-row dependency);
* rational-only numpy arithmetic is embedded over `ℚ` so it stays executable;
  arithmetic that needs `sqrt`/`cos`/`sin`/`pi` is embedded over `ℝ`;
* `np.sqrt` of a negative argument yields NaN in numpy; NaN is modelled as
  `Option.none` (see `npSqrt`);
* `np.where(c, a, b)` on one row is `if c then a else b`;
* machine floats are idealised as exact rationals/reals, as the specification's
  "within floating tolerance" language permits.
-/

namespace VehicleDynamics

/-- Front wheel cornering stiffness [N/rad] (source line 24). -/
def C_f : ℝ := -128915.5

/-- Rear wheel cornering stiffness [N/rad] (source line 25). -/
def C_r : ℝ := -85943.6

/-- Distance from CG to front axle [m] (source line 26). -/
def a : ℝ := 1.06

/-- Distance from CG to rear axle [m] (source line 27). -/
def b : ℝ := 1.85

/-- Vehicle mass [kg] (source line 28). -/
def mass : ℝ := 1412

/-- Polar moment of inertia at CG [kg*m^2] (source line 29). -/
def I_z : ℝ := 1536.7

/-- Tire-road friction coefficient (source line 30). -/
def miu : ℝ := 1

/-- Acceleration of gravity [m/s^2] (source line 31). -/
def g : ℝ := 9.81

/-- Static front normal load `b * mass * g / (a + b)` (source line 52). -/
noncomputable def F_zf : ℝ := b * mass * g / (a + b)

/-- Static rear normal load `a * mass * g / (a + b)` (source line 52). -/
noncomputable def F_zr : ℝ := a * mass * g / (a + b)

/-- Front longitudinal force, source line 53:
`F_xf = np.where(a_x < 0, mass * a_x / 2, np.zeros_like(a_x))`. -/
noncomputable def F_xf (a_x : ℝ) : ℝ := if a_x < 0 then mass * a_x / 2 else 0

/-- Rear longitudinal force, source line 54:
`F_xr = np.where(a_x < 0, mass * a_x / 2, mass * a_x)`. -/
noncomputable def F_xr (a_x : ℝ) : ℝ := if a_x < 0 then mass * a_x / 2 else mass * a_x

/-- `np.sqrt` on one entry: a nonnegative argument gives the real square root,
a negative argument gives NaN (modelled as `none`). -/
noncomputable def npSqrt (x : ℝ) : Option ℝ :=
  if 0 ≤ x then some (Real.sqrt x) else none

/-- Front effective lateral friction coefficient, source line 55:
`miu_f = np.sqrt(np.square(miu * F_zf) - np.square(F_xf)) / F_zf`.
There is no clamping of the square-root argument in the source. -/
noncomputable def miu_f (a_x : ℝ) : Option ℝ :=
  (npSqrt ((miu * F_zf) ^ 2 - F_xf a_x ^ 2)).map (fun s => s / F_zf)

/-- Rear effective lateral friction coefficient, source line 56:
`miu_r = np.sqrt(np.square(miu * F_zr) - np.square(F_xr)) / F_zr`. -/
noncomputable def miu_r (a_x : ℝ) : Option ℝ :=
  (npSqrt ((miu * F_zr) ^ 2 - F_xr a_x ^ 2)).map (fun s => s / F_zr)

/-- The specification's formula for the front effective lateral friction
coefficient, `sqrt(max(0, (mu*F_zf)^2 - F_xf^2)) / F_zf`, written from the
spec's words for comparison with the source's `miu_f`. -/
noncomputable def miu_f_claimed (a_x : ℝ) : ℝ :=
  Real.sqrt (max 0 ((miu * F_zf) ^ 2 - F_xf a_x ^ 2)) / F_zf

/-- The specification's formula for the rear effective lateral friction
coefficient, `sqrt(max(0, (mu*F_zr)^2 - F_xr^2)) / F_zr`, written from the
spec's words for comparison with the source's `miu_r`. -/
noncomputable def miu_r_claimed (a_x : ℝ) : ℝ :=
  Real.sqrt (max 0 ((miu * F_zr) ^ 2 - F_xr a_x ^ 2)) / F_zr

/-- Vehicle state row `[v_x, v_y, r, x, y, phi]` (phi in degrees). -/
structure VState where
  vx : ℝ
  vy : ℝ
  r : ℝ
  x : ℝ
  y : ℝ
  phi : ℝ

/-- Action row `[steer, a_x]` (already de-normalized). -/
structure VAction where
  steer : ℝ
  ax : ℝ

/-- Front slip angle, source line 57:
`alpha_f = np.arctan((v_y + a * r) / (v_x + 1e-8)) - steer`
(the `1e-8` additive epsilon guards the zero-speed denominator). -/
noncomputable def alpha_f (s : VState) (u : VAction) : ℝ :=
  Real.arctan ((s.vy + a * s.r) / (s.vx + 1e-8)) - u.steer

/-- Rear slip angle, source line 58:
`alpha_r = np.arctan((v_y - b * r) / (v_x + 1e-8))`. -/
noncomputable def alpha_r (s : VState) : ℝ :=
  Real.arctan ((s.vy - b * s.r) / (s.vx + 1e-8))

/-- The next-state half of `VehicleDynamics.f_xu`, source lines 40-68.
`phi` is converted to radians (line 41) for the trigonometric calls and the
yaw integration, and the resulting heading is converted back to degrees. -/
noncomputable def f_xu_next (s : VState) (u : VAction) (tau : ℝ) : VState :=
  let phi_rad := s.phi * Real.pi / 180
  { vx := s.vx + tau * (u.ax + s.vy * s.r)
    vy := (mass * s.vy * s.vx + tau * (a * C_f - b * C_r) * s.r -
            tau * C_f * u.steer * s.vx - tau * mass * s.vx ^ 2 * s.r) /
          (mass * s.vx - tau * (C_f + C_r))
    r := (-I_z * s.r * s.vx - tau * (a * C_f - b * C_r) * s.vy +
           tau * a * C_f * u.steer * s.vx) /
         (tau * (a ^ 2 * C_f + b ^ 2 * C_r) - I_z * s.vx)
    x := s.x + tau * (s.vx * Real.cos phi_rad - s.vy * Real.sin phi_rad)
    y := s.y + tau * (s.vx * Real.sin phi_rad + s.vy * Real.cos phi_rad)
    phi := (phi_rad + tau * s.r) * 180 / Real.pi }

/-- `VehicleDynamics.prediction`, source lines 72-74: one `f_xu` step with
`tau = 1 / frequency`. -/
noncomputable def prediction (s : VState) (u : VAction) (frequency : ℝ) : VState :=
  f_xu_next s u (1 / frequency)

end VehicleDynamics

/-- `deal_with_phi_diff`, source lines 523-526; the two `np.where` passes are
applied sequentially, the second testing the value produced by the first. -/
def deal_with_phi_diff (phi_diff : ℚ) : ℚ :=
  let d1 := if phi_diff > 180 then phi_diff - 360 else phi_diff
  if d1 < -180 then d1 + 360 else d1

namespace EnvironmentModel

open VehicleDynamics

/-- Base rollout frequency, source line 82: `self.base_frequency = 10.`. -/
def base_frequency : ℝ := 10

/-- Ego segment of one observation row, 6 scalars
`[v_x, v_y, r, x, y, phi]` (source: `ego_info_dim = 6`). -/
structure EgoInfo where
  vx : ℚ
  vy : ℚ
  r : ℚ
  x : ℚ
  y : ℚ
  phi : ℚ
  deriving DecidableEq

/-- One tracked vehicle's 4 scalars `[x, y, v, phi]`
(source: `per_veh_info_dim = 4`). -/
structure VehInfo where
  x : ℚ
  y : ℚ
  v : ℚ
  phi : ℚ
  deriving DecidableEq

/-- One observation row, already split into the three contiguous segments the
source slices out (`obses[:, :6]`, the tracking block of
`3 * (num_future_data + 1)` scalars, and the trailing vehicle block of
`4 * V` scalars); a well-formed flat row corresponds to exactly one `Obs`. -/
structure Obs where
  ego : EgoInfo
  tracking : List ℚ
  vehs : List VehInfo
  deriving DecidableEq

/-- `EnvironmentModel.convert_vehs_to_rela`, source lines 294-306: subtract
the tiled row `[ego_x, ego_y, 0, 0]` from every vehicle block; ego and
tracking segments are passed through unchanged. -/
def convert_vehs_to_rela (obs_abso : Obs) : Obs :=
  let ego_x := obs_abso.ego.x
  let ego_y := obs_abso.ego.y
  { obs_abso with
    vehs := obs_abso.vehs.map (fun v => ⟨v.x - ego_x, v.y - ego_y, v.v - 0, v.phi - 0⟩) }

/-- `EnvironmentModel.convert_vehs_to_abso`, source lines 308-320: add the
tiled row `[ego_x, ego_y, 0, 0]` to every vehicle block; ego and tracking
segments are passed through unchanged. -/
def convert_vehs_to_abso (obs_rela : Obs) : Obs :=
  let ego_x := obs_rela.ego.x
  let ego_y := obs_rela.ego.y
  { obs_rela with
    vehs := obs_rela.vehs.map (fun v => ⟨v.x + ego_x, v.y + ego_y, v.v + 0, v.phi + 0⟩) }

/-- Vehicle-to-vehicle penalty accumulation of `compute_rewards`, source
lines 164-182, returning the pair
`(veh2veh4training, veh2veh4real)`.

Faithful to the source:
* line 167 initialises `veh2veh_dist = np.zeros_like(veh_infos[:, 0])` and no
  statement inside the loops ever reassigns it, so the comparison value is 0
  throughout;
* lines 170-178 loop over every tracked vehicle and then over the 2 x 2 pairs
  `(ego_point, veh_point)` drawn from `[ego_front_points, ego_rear_points]`
  and `[veh_front_points, veh_rear_points]` (the corner points computed at
  lines 158-162 and 172-176); the loop variables `ego_point` and `veh_point`
  are never read by the loop body, so the pairs are modelled by their
  front/rear tags;
* lines 179-182 add, per pair,
  `np.where(veh2veh_dist - 3.5 < 0, np.square(veh2veh_dist - 3.5), 0)` to the
  training channel and
  `np.where(veh2veh_dist - 2.5 < 0, veh2veh_dist - 2.5, 0)` to the real
  channel. -/
def veh2veh_one_vehicle (veh2veh_dist : ℚ) (acc : ℚ × ℚ) (_vehs : VehInfo) : ℚ × ℚ :=
  [0, 1].foldl
    (fun acc1 _ego_point =>
      [0, 1].foldl
        (fun acc2 _veh_point =>
          (acc2.1 + (if veh2veh_dist - 3.5 < 0 then (veh2veh_dist - 3.5) ^ 2 else 0),
           acc2.2 + (if veh2veh_dist - 2.5 < 0 then veh2veh_dist - 2.5 else 0)))
        acc1)
    acc

/-- The full vehicle loop of lines 170-182, starting from the zero channels
of lines 165-166 and the never-reassigned `veh2veh_dist = 0` of line 167. -/
def veh2veh_penalties (veh_infos : List VehInfo) : ℚ × ℚ :=
  let veh2veh_dist : ℚ := 0
  veh_infos.foldl (veh2veh_one_vehicle veh2veh_dist) (0, 0)

/-- Scalar reward of `compute_rewards`, source lines 134-155 and 250-251.
The observation is first converted to absolute vehicle coordinates
(line 135); the reward then reads only the action, the ego yaw rate and the
first three tracking scalars, all unchanged by that conversion, and sums the
six negated squared terms with weights 0.05, 0.8, 30, 0.02, 5, 0.05.  The
vehicle-to-vehicle and vehicle-to-road channels are returned separately by
the source and do not enter this sum. -/
noncomputable def compute_rewards_scalar (obs : Obs) (u : VAction) : ℝ :=
  let obs_abso := convert_vehs_to_abso obs
  let punish_steer := -(u.steer ^ 2)
  let punish_a_x := -(u.ax ^ 2)
  let punish_yaw_rate := -((obs_abso.ego.r : ℝ) ^ 2)
  let devi_y := -((obs_abso.tracking.getD 0 0 : ℝ) ^ 2)
  let devi_phi := -(((obs_abso.tracking.getD 1 0 : ℝ) * Real.pi / 180) ^ 2)
  let devi_v := -((obs_abso.tracking.getD 2 0 : ℝ) ^ 2)
  0.05 * devi_v + 0.8 * devi_y + 30 * devi_phi + 0.02 * punish_yaw_rate +
    5 * punish_steer + 0.05 * punish_a_x

/-- `np.clip` of one entry to `[lo, hi]`. -/
noncomputable def npClip (x lo hi : ℝ) : ℝ := min (max x lo) hi

/-- `EnvironmentModel._action_transformation_for_end2end`, source lines
116-120: clip each normalized action to `[-1.05, 1.05]`, then map steering by
`0.4 * s` and acceleration by `3 * a - 1`. -/
noncomputable def action_transformation (steer_norm a_x_norm : ℝ) : VAction :=
  ⟨0.4 * npClip steer_norm (-1.05) 1.05, 3 * npClip a_x_norm (-1.05) 1.05 - 1⟩

/-- `EnvironmentModel.ego_predict`, source lines 322-328: one
`VehicleDynamics.prediction` step at `base_frequency` (10 Hz, so
`tau = 0.1 s`), then `v_x` is clipped to `[0, 35]`. -/
noncomputable def ego_predict (s : VState) (u : VAction) : VState :=
  let next := prediction s u base_frequency
  { next with vx := npClip next.vx 0 35 }

/-- Module-level names bound in `dynamics_and_models.py` when its classes are
used: the imports at lines 10-19 and the module's own top-level definitions. -/
def moduleGlobalNames : List String :=
  ["pi", "cos", "sin", "bezier", "plt", "np", "logical_and",
   "rotate_coordination", "L", "W", "CROSSROAD_SIZE", "LANE_WIDTH",
   "LANE_NUMBER", "VEHICLE_MODE_LIST", "VehicleDynamics", "EnvironmentModel",
   "deal_with_phi_diff", "ReferencePath", "test_ref_path",
   "test_future_n_data", "test_tracking_error_vector", "test_model",
   "test_tf_function", "test_tffunc", "test_ref"]

/-- Python global-name resolution inside this module (`rewards_mode` is not a
Python builtin, so the module globals are the only place it could be bound). -/
def lookupGlobal (n : String) : Option String :=
  if n ∈ moduleGlobalNames then some n else none

/-- Fields of `EnvironmentModel` assigned in `__init__` whose right-hand
sides are constants or locally constructed values. -/
structure EnvModelFields where
  task : String
  num_future_data : ℕ
  base_frequency_field : ℚ := 10
  exp_v : ℚ := 8
  ego_info_dim : ℕ := 6
  per_veh_info_dim : ℕ := 4
  per_veh_cstr_dim : ℕ := 4
  per_tracking_info_dim : ℕ := 3

/-- `EnvironmentModel.__init__`, source lines 78-96.  For a valid maneuver
class the assignments at lines 79-94 bind constants, `VehicleDynamics()` and
`ReferencePath(task)` (whose construction for a valid task runs the pure
geometry of lines 549-648 and raises nothing); execution then reaches line
95, `self.rewards_mode = rewards_mode`, which reads the name `rewards_mode`.
That name is neither a parameter of `__init__` (the parameter is
`costs_mode`), nor bound anywhere in the function body before line 95, nor a
module global, nor a builtin, so Python raises `NameError` there.  An invalid
task fails the `assert task == right` at line 617 inside the
`ReferencePath` constructor. -/
def environmentModelInit (task : String) (num_future_data : ℕ) :
    Except String EnvModelFields :=
  if task = "left" ∨ task = "straight" ∨ task = "right" then
    match lookupGlobal "rewards_mode" with
    | some _ => Except.ok { task := task, num_future_data := num_future_data }
    | none => Except.error "NameError: name rewards_mode is not defined"
  else
    Except.error "AssertionError"

end EnvironmentModel

namespace ReferencePath

/-- One reference-path sample `(x, y, phi)`; the source stores a path as the
triple of equal-length arrays `(xs_1, ys_1, phis_1)`. -/
structure PathPoint where
  x : ℚ
  y : ℚ
  phi : ℚ
  deriving DecidableEq

/-- `ReferencePath.indexs2points`, source lines 674-681: clamp the index to
`[0, len(path) - 1]` with two `np.where` passes, then read the sample there. -/
def indexs2points (path : List PathPoint) (indexs : ℤ) : PathPoint :=
  let i1 : ℤ := if indexs ≥ 0 then indexs else 0
  let i2 : ℤ := if i1 < (path.length : ℤ) then i1 else (path.length : ℤ) - 1
  path.getD i2.toNat ⟨0, 0, 0⟩

/-- `ReferencePath.future_n_data`, source lines 665-672: `n` times, advance
the running index by 80 and clamp it with
`np.where(idx >= len(path) - 2, len(path) - 2, idx)`, collecting
`indexs2points` of each clamped index. -/
def future_n_data (path : List PathPoint) : ℤ → ℕ → List PathPoint
  | _, 0 => []
  | current_indexs, n + 1 =>
    let advanced := current_indexs + 80
    let clamped : ℤ :=
      if advanced ≥ (path.length : ℤ) - 2 then (path.length : ℤ) - 2 else advanced
    indexs2points path clamped :: future_n_data path clamped n

end ReferencePath

section Theorems

open VehicleDynamics EnvironmentModel ReferencePath

lemma veh2veh_foldl_general (l : List VehInfo) :
    ∀ p : ℚ × ℚ,
      l.foldl (veh2veh_one_vehicle 0) p =
        (p.1 + 49 * l.length, p.2 - 10 * l.length) := by
  induction l with
  | nil => intro p; simp
  | cons v t ih =>
      intro p
      have hv : veh2veh_one_vehicle 0 p v = (p.1 + 49, p.2 - 10) := by
        simp only [veh2veh_one_vehicle, List.foldl]
        norm_num
        exact ⟨by ring, by ring⟩
      rw [List.foldl_cons, hv, ih]
      simp only [List.length_cons, Prod.mk.injEq]
      push_cast
      constructor <;> ring

/-- C1: the vehicle-to-vehicle penalty channels of `compute_rewards` do not
depend on the observation at all: because `veh2veh_dist` is initialised to
zero at line 167 and never reassigned inside the pair loop, every
(vehicle, ego-corner, other-corner) iteration adds the constant
`(0 - 3.5)^2 = 12.25` to the training channel and `0 - 2.5 = -2.5` to the
real channel, so the channels are `49 * V` and `-10 * V` for `V` tracked
vehicles — never zero for `V > 0`, however far apart the footprints are, and
never increasing as they approach.  This contradicts the claim (and the
specification's stated intent) that the channels are zero when every fresh
corner-to-corner distance exceeds 3.5 m / 2.5 m and grow as vehicles
approach. -/
theorem veh2veh_penalties_ignore_distances (veh_infos : List VehInfo) :
    veh2veh_penalties veh_infos =
      (49 * (veh_infos.length : ℚ), -10 * (veh_infos.length : ℚ)) := by
  simp only [veh2veh_penalties]
  rw [veh2veh_foldl_general veh_infos (0, 0)]
  norm_num

/-- C2: constructing an `EnvironmentModel` for the valid maneuver class
`left` raises `NameError` rather than completing: line 95 of the source,
`self.rewards_mode = rewards_mode`, reads a name that is bound nowhere
(the constructor parameter is `costs_mode`), so `reset`/`rollout_out` can
never even be reached on a freshly constructed model. -/
theorem environmentModelInit_raises :
    environmentModelInit "left" 0 =
      Except.error "NameError: name rewards_mode is not defined" := by
  rfl

/-- C3 counterexample: `deal_with_phi_diff` maps `-180` to `-180`, which is
outside the claimed half-open interval `(-180, 180]`, and it is not
idempotent on `600` (one application gives `240`, a second gives `-120`). -/
theorem deal_with_phi_diff_not_range_exact :
    deal_with_phi_diff (-180) = -180 ∧
      deal_with_phi_diff (deal_with_phi_diff 600) ≠ deal_with_phi_diff 600 := by
  norm_num [deal_with_phi_diff]

lemma deal_with_phi_diff_eq_rule (d : ℚ) :
    deal_with_phi_diff d =
      if d > 180 then d - 360 else if d < -180 then d + 360 else d := by
  simp only [deal_with_phi_diff]
  split_ifs <;> linarith

/-- C3 amended: `deal_with_phi_diff` implements the stated rule (raw
difference above 180 loses 360, below -180 gains 360, otherwise unchanged);
for raw differences in `[-540, 540]` — which covers any difference of two
headings that each lie in `[-180, 180]` — its output lies in the closed
interval `[-180, 180]` and applying it twice equals applying it once.  The
original claim's half-open range `(-180, 180]` fails at `-180`, and both the
range and idempotence fail for inputs outside `[-540, 540]`. -/
theorem deal_with_phi_diff_amended (d : ℚ) (h1 : -540 ≤ d) (h2 : d ≤ 540) :
    deal_with_phi_diff d =
      (if d > 180 then d - 360 else if d < -180 then d + 360 else d) ∧
    -180 ≤ deal_with_phi_diff d ∧ deal_with_phi_diff d ≤ 180 ∧
    deal_with_phi_diff (deal_with_phi_diff d) = deal_with_phi_diff d := by
  have hr := deal_with_phi_diff_eq_rule d
  have hlo : -180 ≤ deal_with_phi_diff d := by
    rw [hr]; split_ifs <;> linarith
  have hhi : deal_with_phi_diff d ≤ 180 := by
    rw [hr]; split_ifs <;> linarith
  refine ⟨hr, hlo, hhi, ?_⟩
  rw [deal_with_phi_diff_eq_rule (deal_with_phi_diff d)]
  split_ifs <;> linarith

/-- C3 witness: the amended statement instantiated at the raw difference
`200`, which the rule wraps to `-160`. -/
theorem deal_with_phi_diff_amended_witness :
    -540 ≤ (200 : ℚ) ∧ (200 : ℚ) ≤ 540 ∧
      (deal_with_phi_diff 200 =
          (if (200 : ℚ) > 180 then 200 - 360 else
            if (200 : ℚ) < -180 then 200 + 360 else 200) ∧
        -180 ≤ deal_with_phi_diff 200 ∧ deal_with_phi_diff 200 ≤ 180 ∧
        deal_with_phi_diff (deal_with_phi_diff 200) = deal_with_phi_diff 200) := by
  refine ⟨by norm_num, by norm_num, ?_⟩
  exact deal_with_phi_diff_amended 200 (by norm_num) (by norm_num)

lemma vehs_roundtrip (ex ey : ℚ) (l : List VehInfo) :
    (l.map (fun v => (⟨v.x + ex, v.y + ey, v.v + 0, v.phi + 0⟩ : VehInfo))).map
        (fun v => (⟨v.x - ex, v.y - ey, v.v - 0, v.phi - 0⟩ : VehInfo)) = l := by
  induction l with
  | nil => rfl
  | cons v t ih =>
      cases v with
      | mk vx vy vv vphi =>
          simp only [List.map_cons, ih, List.cons.injEq]
          refine ⟨?_, trivial⟩
          simp

/-- C4: converting the other-vehicle segment from relative to absolute
coordinates and back is an exact inverse pair, and both conversions leave
the ego and tracking segments unchanged (in the exact-rational model the
round trip is an identity, which subsumes the claim's floating tolerance). -/
theorem convert_vehs_roundtrip (obs : Obs) :
    convert_vehs_to_rela (convert_vehs_to_abso obs) = obs ∧
    (convert_vehs_to_abso obs).ego = obs.ego ∧
    (convert_vehs_to_abso obs).tracking = obs.tracking ∧
    (convert_vehs_to_rela obs).ego = obs.ego ∧
    (convert_vehs_to_rela obs).tracking = obs.tracking := by
  refine ⟨?_, rfl, rfl, rfl, rfl⟩
  cases obs with
  | mk e t vs =>
      simp only [convert_vehs_to_abso, convert_vehs_to_rela, Obs.mk.injEq]
      exact ⟨trivial, trivial, vehs_roundtrip e.x e.y vs⟩


/-- C5: the longitudinal force split of `f_xu` — braking (negative commanded
acceleration) is split evenly between axles at `mass * a_x / 2` each, while
driving (non-negative commanded acceleration) puts 0 on the front axle and
`mass * a_x` on the rear axle. -/
theorem force_split (a_x : ℝ) :
    (a_x < 0 → F_xf a_x = mass * a_x / 2 ∧ F_xr a_x = mass * a_x / 2) ∧
    (0 ≤ a_x → F_xf a_x = 0 ∧ F_xr a_x = mass * a_x) := by
  constructor
  · intro h
    simp [F_xf, F_xr, h]
  · intro h
    simp [F_xf, F_xr, not_lt.mpr h]

/-- C5 witness: the force split instantiated at a braking command `-2` and a
driving command `1`. -/
theorem force_split_witness :
    ((-2 : ℝ) < 0 ∧ F_xf (-2) = mass * (-2) / 2 ∧ F_xr (-2) = mass * (-2) / 2) ∧
    ((0 : ℝ) ≤ 1 ∧ F_xf 1 = 0 ∧ F_xr 1 = mass * 1) := by
  exact ⟨⟨by norm_num, (force_split (-2)).1 (by norm_num)⟩,
    ⟨by norm_num, (force_split 1).2 (by norm_num)⟩⟩

/-- C6 counterexample: at commanded acceleration `-13` the square-root
argument `(miu * F_zf)^2 - F_xf^2` is negative, and since the source does
not clamp it, `np.sqrt` produces NaN (modelled `none`) instead of the
claimed well-defined value `sqrt(max(0, .)) / F_zf = 0`. -/
theorem miu_f_not_clamped :
    miu_f (-13) = none ∧ miu_f (-13) ≠ some (miu_f_claimed (-13)) := by
  have hfx : F_xf (-13) = -9178 := by
    rw [F_xf, if_pos (by norm_num : (-13 : ℝ) < 0), mass]
    norm_num
  have harg : (miu * F_zf) ^ 2 - F_xf (-13) ^ 2 < 0 := by
    rw [hfx]
    simp only [miu, F_zf, b, mass, g, a]
    norm_num
  have hnone : miu_f (-13) = none := by
    simp only [miu_f, npSqrt, if_neg (not_le.mpr harg)]
    rfl
  exact ⟨hnone, by rw [hnone]; exact fun hc => Option.noConfusion hc⟩

/-- C6 amended: the source computes
`sqrt((miu * F_z)^2 - F_x^2) / F_z` per axle with no clamping of the
square-root argument; whenever the argument is nonnegative — in particular
for every commanded acceleration in the de-normalized action range
`[-4.15, 2.15]` — this coincides with the claimed
`sqrt(max(0, (miu * F_z)^2 - F_x^2)) / F_z` and is a well-defined real
number, while for braking commands strong enough that `|F_x| > miu * F_z`
the source's expression is NaN rather than the claimed 0. -/
theorem miu_not_clamped_amended (a_x : ℝ) (h1 : -4.15 ≤ a_x) (h2 : a_x ≤ 2.15) :
    miu_f a_x = some (miu_f_claimed a_x) ∧ miu_r a_x = some (miu_r_claimed a_x) := by
  have hFzf : F_zf = 4270947 / 485 := by
    simp only [F_zf, b, mass, g, a]
    norm_num
  have hFzr : F_zr = 12235686 / 2425 := by
    simp only [F_zr, b, mass, g, a]
    norm_num
  have hfx : F_xf a_x ^ 2 ≤ 2929.9 ^ 2 := by
    simp only [F_xf, mass]
    split_ifs with h
    · nlinarith
    · nlinarith
  have hfr : F_xr a_x ^ 2 ≤ 3035.8 ^ 2 := by
    simp only [F_xr, mass]
    split_ifs with h
    · nlinarith
    · nlinarith
  have hzf : (0 : ℝ) ≤ (miu * F_zf) ^ 2 - F_xf a_x ^ 2 := by
    have hc : (2929.9 : ℝ) ^ 2 ≤ (1 * (4270947 / 485)) ^ 2 := by norm_num
    rw [miu, hFzf]
    linarith
  have hzr : (0 : ℝ) ≤ (miu * F_zr) ^ 2 - F_xr a_x ^ 2 := by
    have hc : (3035.8 : ℝ) ^ 2 ≤ (1 * (12235686 / 2425)) ^ 2 := by norm_num
    rw [miu, hFzr]
    linarith
  constructor
  · simp only [miu_f, npSqrt, if_pos hzf, miu_f_claimed, max_eq_right hzf]
    rfl
  · simp only [miu_r, npSqrt, if_pos hzr, miu_r_claimed, max_eq_right hzr]
    rfl

/-- C6 witness: the amended statement instantiated at commanded
acceleration 0, inside the de-normalized action range. -/
theorem miu_not_clamped_amended_witness :
    (-4.15 : ℝ) ≤ 0 ∧ (0 : ℝ) ≤ 2.15 ∧
      (miu_f 0 = some (miu_f_claimed 0) ∧ miu_r 0 = some (miu_r_claimed 0)) :=
  ⟨by norm_num, by norm_num, miu_not_clamped_amended 0 (by norm_num) (by norm_num)⟩

/-- C7: from a state with zero lateral velocity, zero yaw rate and nonzero
longitudinal velocity, one `f_xu` step with zero steering and zero
acceleration advances the position by exactly `v_x * tau` along the current
heading and leaves the heading unchanged. -/
theorem zero_action_straight_motion (vx x y phi tau : ℝ) (h : vx ≠ 0) :
    (f_xu_next ⟨vx, 0, 0, x, y, phi⟩ ⟨0, 0⟩ tau).x =
        x + vx * tau * Real.cos (phi * Real.pi / 180) ∧
    (f_xu_next ⟨vx, 0, 0, x, y, phi⟩ ⟨0, 0⟩ tau).y =
        y + vx * tau * Real.sin (phi * Real.pi / 180) ∧
    (f_xu_next ⟨vx, 0, 0, x, y, phi⟩ ⟨0, 0⟩ tau).phi = phi := by
  refine ⟨?_, ?_, ?_⟩ <;> simp only [f_xu_next]
  · ring
  · ring
  · rw [mul_zero, add_zero]
    field_simp

/-- C7 witness: the straight-motion statement instantiated at
`v_x = 1, (x, y) = (5, 6), phi = 0, tau = 1/10`. -/
theorem zero_action_straight_motion_witness :
    (1 : ℝ) ≠ 0 ∧
      ((f_xu_next ⟨1, 0, 0, 5, 6, 0⟩ ⟨0, 0⟩ (1 / 10)).x =
          5 + 1 * (1 / 10) * Real.cos (0 * Real.pi / 180) ∧
        (f_xu_next ⟨1, 0, 0, 5, 6, 0⟩ ⟨0, 0⟩ (1 / 10)).y =
          6 + 1 * (1 / 10) * Real.sin (0 * Real.pi / 180) ∧
        (f_xu_next ⟨1, 0, 0, 5, 6, 0⟩ ⟨0, 0⟩ (1 / 10)).phi = 0) :=
  ⟨by norm_num, zero_action_straight_motion 1 5 6 0 (1 / 10) (by norm_num)⟩

/-- C9: `ego_predict` runs `VehicleDynamics.prediction` at the fixed
`base_frequency` of 10 Hz and clips the resulting longitudinal velocity, so
for every ego state and (de-normalized) action the returned `v_x` lies in
`[0, 35]` m/s. -/
theorem ego_predict_vx_bounds (s : VState) (u : VAction) :
    0 ≤ (ego_predict s u).vx ∧ (ego_predict s u).vx ≤ 35 := by
  simp only [ego_predict, npClip]
  exact ⟨le_min (le_max_right _ _) (by norm_num), min_le_right _ _⟩

/-- C10: the scalar reward of `compute_rewards` is a weighted sum of negated
squares with nonnegative weights 0.05, 0.8, 30, 0.02, 5, 0.05 and no
vehicle-to-vehicle or vehicle-to-road contribution, so it is nonpositive for
every observation row and action. -/
theorem compute_rewards_scalar_nonpos (obs : Obs) (u : VAction) :
    compute_rewards_scalar obs u ≤ 0 := by
  simp only [compute_rewards_scalar]
  have h1 := sq_nonneg u.steer
  have h2 := sq_nonneg u.ax
  have h3 := sq_nonneg ((convert_vehs_to_abso obs).ego.r : ℝ)
  have h4 := sq_nonneg (((convert_vehs_to_abso obs).tracking.getD 0 0 : ℚ) : ℝ)
  have h5 := sq_nonneg ((((convert_vehs_to_abso obs).tracking.getD 1 0 : ℚ) : ℝ) *
    Real.pi / 180)
  have h6 := sq_nonneg (((convert_vehs_to_abso obs).tracking.getD 2 0 : ℚ) : ℝ)
  linarith


lemma future_clamp_eq_min (adv m : ℤ) : (if adv ≥ m then m else adv) = min adv m := by
  split_ifs with h <;> omega

lemma future_n_data_length (path : List PathPoint) :
    ∀ (n : ℕ) (idx : ℤ), (future_n_data path idx n).length = n := by
  intro n
  induction n with
  | zero => intro idx; rfl
  | succ n ih =>
      intro idx
      simp only [future_n_data, List.length_cons, ih]

lemma future_n_data_char (path : List PathPoint) :
    ∀ (n k : ℕ) (idx : ℤ), k < n →
      (future_n_data path idx n).getD k ⟨0, 0, 0⟩ =
        indexs2points path (min (idx + 80 * ((k : ℤ) + 1)) ((path.length : ℤ) - 2)) := by
  intro n
  induction n with
  | zero => intro k idx hk; omega
  | succ n ih =>
      intro k idx hk
      cases k with
      | zero =>
          have harg : min (idx + 80) ((path.length : ℤ) - 2)
              = min (idx + 80 * (((0 : ℕ) : ℤ) + 1)) ((path.length : ℤ) - 2) := by
            norm_num
          simp only [future_n_data, List.getD_cons_zero, future_clamp_eq_min]
          rw [harg]
      | succ k =>
          simp only [future_n_data, List.getD_cons_succ]
          rw [ih k _ (by omega), future_clamp_eq_min]
          have harg : min (min (idx + 80) ((path.length : ℤ) - 2) + 80 * ((k : ℤ) + 1))
                ((path.length : ℤ) - 2)
              = min (idx + 80 * (((k + 1 : ℕ) : ℤ) + 1)) ((path.length : ℤ) - 2) := by
            push_cast
            omega
          rw [harg]

lemma indexs2points_getD (path : List PathPoint) (h2 : 2 ≤ path.length) (j : ℤ)
    (hj : j ≤ (path.length : ℤ) - 2) :
    ∃ i : ℕ, (i : ℤ) ≤ (path.length : ℤ) - 2 ∧
      indexs2points path j = path.getD i ⟨0, 0, 0⟩ := by
  simp only [indexs2points]
  by_cases hj0 : j ≥ 0
  · rw [if_pos hj0, if_pos (by omega)]
    exact ⟨j.toNat, by omega, rfl⟩
  · rw [if_neg hj0, if_pos (by omega)]
    exact ⟨(0 : ℤ).toNat, by omega, rfl⟩

/-- Five-point reference path with pairwise distinct samples, used to
exercise the end-of-path clamping of `future_n_data`. -/
def demoPath : List PathPoint :=
  [⟨0, 0, 0⟩, ⟨1, 10, 1⟩, ⟨2, 20, 2⟩, ⟨3, 30, 3⟩, ⟨4, 40, 4⟩]

/-- C8 counterexample: on a 5-sample path, a look-ahead from index 0 clamps
the advanced index to `len - 2 = 3` and returns the second-to-last sample,
not the path's final point (index `len - 1 = 4`), contradicting the claim
that every advanced index past the end yields the path's final point. -/
theorem future_n_data_not_final_point :
    future_n_data demoPath 0 1 = [demoPath.getD 3 ⟨0, 0, 0⟩] ∧
      demoPath.getD 3 ⟨0, 0, 0⟩ ≠ demoPath.getD (demoPath.length - 1) ⟨0, 0, 0⟩ := by
  constructor
  · norm_num [future_n_data, demoPath, indexs2points]
    rfl
  · norm_num [demoPath]

/-- C8 amended: `future_n_data(index, n)` returns `n` points obtained by
repeatedly advancing the index by 80 samples and clamping at
`len(path) - 2`; the point returned at position `k` is the path sample at
the clamped index `min(index + 80 * (k + 1), len(path) - 2)`, so no
returned point lies beyond the last valid path sample, and every advanced
index at or past `len(path) - 2` yields the path's second-to-last point
(index `len(path) - 2`), not the final point as originally claimed. -/
theorem future_n_data_amended (path : List PathPoint) (h2 : 2 ≤ path.length)
    (idx : ℤ) (n k : ℕ) (hk : k < n) :
    (future_n_data path idx n).length = n ∧
    (future_n_data path idx n).getD k ⟨0, 0, 0⟩ =
      indexs2points path (min (idx + 80 * ((k : ℤ) + 1)) ((path.length : ℤ) - 2)) ∧
    ∃ i : ℕ, (i : ℤ) ≤ (path.length : ℤ) - 2 ∧
      (future_n_data path idx n).getD k ⟨0, 0, 0⟩ = path.getD i ⟨0, 0, 0⟩ := by
  refine ⟨future_n_data_length path n idx, future_n_data_char path n k idx hk, ?_⟩
  rw [future_n_data_char path n k idx hk]
  exact indexs2points_getD path h2 _ (min_le_right _ _)

/-- C8 witness: the amended statement instantiated on the 5-sample path at
starting index 0 with one look-ahead point. -/
theorem future_n_data_amended_witness :
    2 ≤ demoPath.length ∧ (0 : ℕ) < 1 ∧
      ((future_n_data demoPath 0 1).length = 1 ∧
        (future_n_data demoPath 0 1).getD 0 ⟨0, 0, 0⟩ =
          indexs2points demoPath
            (min (0 + 80 * (((0 : ℕ) : ℤ) + 1)) ((demoPath.length : ℤ) - 2)) ∧
        ∃ i : ℕ, (i : ℤ) ≤ (demoPath.length : ℤ) - 2 ∧
          (future_n_data demoPath 0 1).getD 0 ⟨0, 0, 0⟩ = demoPath.getD i ⟨0, 0, 0⟩) :=
  ⟨by norm_num [demoPath], by norm_num,
    future_n_data_amended demoPath (by norm_num [demoPath]) 0 1 0 (by norm_num)⟩

end Theorems
